import Mathlib

/-!
Verification of the resource-governance core of the Eden renderer:
the VRAM budget controller (`gl_vram_manager.cpp`), the texture
eviction engine (`gl_texture_gc.h` / second half of
`gl_command_buffer_pool.cpp`), and the reusable command-buffer pool
(`gl_command_buffer_pool.{h,cpp}`).

Modelling conventions:
* `u32`/`u64` counters are modelled as `Nat`; C++ unsigned subtraction
  `a - b` is modelled with truncated `Nat` subtraction, which agrees
  with the machine semantics on all states where the subtrahend does
  not exceed the minuend (true of every frame-difference computed in
  the source, where the "last" frame is always a previously observed
  value of the current frame counter).
* the `float` usage ratio and pressure thresholds are modelled over
  `ℚ`; every concrete comparison appearing in a claim has a margin far
  larger than the float rounding error, and the monotonicity argument
  is insensitive to the representation.
* callbacks are opaque to the controller: a cleanup callback is
  modelled by the byte count it reports freed, an emergency callback
  has no observable effect on controller state.  The invocation of the
  callback lists is observable through `cleanup_count_` /
  `emergency_purge_count_`, which the source increments exactly when
  the corresponding callback loop runs.
* `std::unordered_map` iteration order is unspecified in C++; the
  tracked-texture registry is modelled as an association list whose
  order stands for one realizable iteration order.  `std::sort` with a
  strict comparator is modelled as a stable merge sort by the
  reflexive closure of that comparator, again one realizable outcome.
-/

namespace Eden

/-! ## VRAM Manager (`gl_vram_manager.cpp`) -/

inductive MemoryPressure where
  | None
  | Low
  | Medium
  | High
  | Critical
deriving DecidableEq, Repr

def MemoryPressure.toNat : MemoryPressure → Nat
  | .None => 0
  | .Low => 1
  | .Medium => 2
  | .High => 3
  | .Critical => 4

inductive DeviceTier where
  | LowEnd
  | MidRange
  | HighEnd
  | Flagship
deriving DecidableEq, Repr

structure VMConfig where
  vram_cap_bytes : Nat := 1536 * 1024 * 1024
  device_tier : DeviceTier := .MidRange
  low_pressure_threshold : ℚ := mkRat 60 100
  medium_pressure_threshold : ℚ := mkRat 75 100
  high_pressure_threshold : ℚ := mkRat 85 100
  critical_pressure_threshold : ℚ := mkRat 95 100
  cleanup_threshold_bytes : Nat := 1280 * 1024 * 1024
  emergency_threshold_bytes : Nat := 1460 * 1024 * 1024
  enable_auto_cleanup : Bool := true
  enable_emergency_purge : Bool := true
  log_interval_frames : Nat := 300

/-- The `MidRange` branch of `VRAMManager::GetRecommendedConfig`:
cap 1536 MiB, cleanup threshold 1280 MiB, emergency threshold 1460 MiB,
pressure thresholds 0.60 / 0.75 / 0.85 / 0.95. -/
def midRangeConfig : VMConfig :=
  { vram_cap_bytes := 1536 * 1024 * 1024
    device_tier := .MidRange
    low_pressure_threshold := mkRat 60 100
    medium_pressure_threshold := mkRat 75 100
    high_pressure_threshold := mkRat 85 100
    critical_pressure_threshold := mkRat 95 100
    cleanup_threshold_bytes := 1280 * 1024 * 1024
    emergency_threshold_bytes := 1460 * 1024 * 1024 }

structure VMState where
  current_usage : Nat := 0
  peak_usage : Nat := 0
  current_frame : Nat := 0
  cleanup_callbacks : List Nat := []
  emergency_callback_count : Nat := 0
  cleanup_count : Nat := 0
  emergency_purge_count : Nat := 0
  total_bytes_freed : Nat := 0
  last_pressure : MemoryPressure := .None
  last_cleanup_frame : Nat := 0
  last_emergency_frame : Nat := 0
deriving DecidableEq, Repr

def sumFreed : List Nat → Nat
  | [] => 0
  | x :: xs => x + sumFreed xs

/-- The usage ratio `current_usage_ / vram_cap_bytes`, as an exact
rational (`mkRat a b` equals `(a : ℚ) / (b : ℚ)`). -/
def GetUsagePercentage (cfg : VMConfig) (s : VMState) : ℚ :=
  mkRat (s.current_usage : Int) cfg.vram_cap_bytes

def CalculatePressure (cfg : VMConfig) (s : VMState) : MemoryPressure :=
  let usage := GetUsagePercentage cfg s
  if cfg.critical_pressure_threshold ≤ usage then .Critical
  else if cfg.high_pressure_threshold ≤ usage then .High
  else if cfg.medium_pressure_threshold ≤ usage then .Medium
  else if cfg.low_pressure_threshold ≤ usage then .Low
  else .None

/-- `VRAMManager::ExecuteCleanup`: returns unchanged unless auto-cleanup is
enabled and at least 60 frames have elapsed since the last cleanup;
otherwise runs every cleanup callback, sums the bytes they report freed,
and records the cleanup. -/
def ExecuteCleanup (cfg : VMConfig) (s : VMState) : VMState :=
  if cfg.enable_auto_cleanup = false then s
  else if s.current_frame - s.last_cleanup_frame < 60 then s
  else
    { s with
      cleanup_count := s.cleanup_count + 1
      total_bytes_freed := s.total_bytes_freed + sumFreed s.cleanup_callbacks
      last_cleanup_frame := s.current_frame }

/-- `VRAMManager::ExecuteEmergencyPurge`: returns unchanged unless the
emergency purge is enabled and at least 120 frames have elapsed since the
last purge; otherwise runs the emergency callbacks, then also runs
`ExecuteCleanup`, then records the purge. -/
def ExecuteEmergencyPurge (cfg : VMConfig) (s : VMState) : VMState :=
  if cfg.enable_emergency_purge = false then s
  else if s.current_frame - s.last_emergency_frame < 120 then s
  else
    let s1 := ExecuteCleanup cfg s
    { s1 with
      emergency_purge_count := s1.emergency_purge_count + 1
      last_emergency_frame := s1.current_frame }

def HandlePressureChange (cfg : VMConfig) (s : VMState)
    (new_pressure : MemoryPressure) : VMState :=
  let s1 := if MemoryPressure.High.toNat ≤ new_pressure.toNat
            then ExecuteCleanup cfg s else s
  if new_pressure = .Critical then ExecuteEmergencyPurge cfg s1 else s1

def ShouldCleanup (cfg : VMConfig) (s : VMState) : Bool :=
  cfg.enable_auto_cleanup &&
  decide (cfg.cleanup_threshold_bytes ≤ s.current_usage) &&
  decide (60 ≤ s.current_frame - s.last_cleanup_frame)

def ShouldEmergencyPurge (cfg : VMConfig) (s : VMState) : Bool :=
  cfg.enable_emergency_purge &&
  decide (cfg.emergency_threshold_bytes ≤ s.current_usage) &&
  decide (120 ≤ s.current_frame - s.last_emergency_frame)

/-- The pressure-transition block of `VRAMManager::UpdateUsage`: if the
recomputed level differs from `last_pressure_`, run
`HandlePressureChange` and record the new level. -/
def UpdatePressurePhase (cfg : VMConfig) (s : VMState) : VMState :=
  let np := CalculatePressure cfg s
  if np ≠ s.last_pressure
  then { HandlePressureChange cfg s np with last_pressure := np }
  else s

/-- The two gated checks at the end of `VRAMManager::UpdateUsage`:
`ShouldCleanup` then (on the possibly-updated state) `ShouldEmergencyPurge`. -/
def UpdateGatePhase (cfg : VMConfig) (s : VMState) : VMState :=
  let s3 := if ShouldCleanup cfg s = true then ExecuteCleanup cfg s else s
  if ShouldEmergencyPurge cfg s3 = true then ExecuteEmergencyPurge cfg s3 else s3

/-- `VRAMManager::UpdateUsage`: record usage and peak, handle a pressure
transition, then evaluate the gated cleanup and emergency conditions. -/
def UpdateUsage (cfg : VMConfig) (s : VMState) (bytes : Nat) : VMState :=
  UpdateGatePhase cfg (UpdatePressurePhase cfg
    { s with
      current_usage := bytes
      peak_usage := if s.peak_usage < bytes then bytes else s.peak_usage })

def RequestCleanup (cfg : VMConfig) (s : VMState) : VMState :=
  ExecuteCleanup cfg s

def ForceEmergencyPurge (cfg : VMConfig) (s : VMState) : VMState :=
  ExecuteEmergencyPurge cfg s

def VMTickFrame (s : VMState) : VMState :=
  { s with current_frame := s.current_frame + 1 }

inductive VMOp where
  | updateUsage (bytes : Nat)
  | tickFrame
  | requestCleanup
  | forceEmergencyPurge
deriving DecidableEq, Repr

def runVM (cfg : VMConfig) (s : VMState) : List VMOp → VMState
  | [] => s
  | op :: rest =>
    match op with
    | .updateUsage b => runVM cfg (UpdateUsage cfg s b) rest
    | .tickFrame => runVM cfg (VMTickFrame s) rest
    | .requestCleanup => runVM cfg (RequestCleanup cfg s) rest
    | .forceEmergencyPurge => runVM cfg (ForceEmergencyPurge cfg s) rest

def numTicks : List VMOp → Nat
  | [] => 0
  | .tickFrame :: rest => numTicks rest + 1
  | _ :: rest => numTicks rest

/-! ## Command Buffer Pool (`gl_command_buffer_pool.{h,cpp}`)

Buffers are identified by their `allocation_id_`; the byte payload and
write cursor of a `CommandBuffer` play no role in the pool-tracking
claims and are elided.  `available` is the FIFO queue
`available_buffers_` (head = front), `all` is `all_buffers_`. -/

structure PoolConfig where
  initial_pool_size : Nat := 16
  max_pool_size : Nat := 64
  buffer_size : Nat := 1024 * 1024
  auto_expand : Bool := true
  auto_shrink : Bool := true
  shrink_delay_frames : Nat := 300
deriving DecidableEq, Repr

structure PoolState where
  available : List Nat := []
  all : List Nat := []
  total_acquisitions : Nat := 0
  total_releases : Nat := 0
  pool_expansions : Nat := 0
  pool_shrinks : Nat := 0
  current_frame : Nat := 0
  last_shrink_frame : Nat := 0
  next_allocation_id : Nat := 0
deriving DecidableEq, Repr

/-- `CommandBufferPool::InitializePool`: pre-allocate `initial_pool_size`
buffers, all available. -/
def initPool (cfg : PoolConfig) : PoolState :=
  { available := List.range cfg.initial_pool_size
    all := List.range cfg.initial_pool_size
    next_allocation_id := cfg.initial_pool_size }

/-- `CommandBufferPool::AcquireBuffer`: reuse the front available buffer,
else expand the pool if allowed, else hand out an untracked temporary
buffer.  Returns the new state and the id of the handed-out buffer. -/
def AcquireBuffer (cfg : PoolConfig) (s : PoolState) : PoolState × Nat :=
  match s.available with
  | h :: t =>
    ({ s with available := t, total_acquisitions := s.total_acquisitions + 1 }, h)
  | [] =>
    if cfg.auto_expand = true ∧ s.all.length < cfg.max_pool_size then
      ({ s with all := s.all ++ [s.next_allocation_id]
                next_allocation_id := s.next_allocation_id + 1
                pool_expansions := s.pool_expansions + 1
                total_acquisitions := s.total_acquisitions + 1 }, s.next_allocation_id)
    else
      ({ s with next_allocation_id := s.next_allocation_id + 1
                total_acquisitions := s.total_acquisitions + 1 }, s.next_allocation_id)

/-- `CommandBufferPool::ReleaseBuffer`: a buffer found in `all_buffers_`
returns to the available queue; anything else is dropped. -/
def ReleaseBuffer (s : PoolState) (h : Nat) : PoolState :=
  if h ∈ s.all then
    { s with available := s.available ++ [h], total_releases := s.total_releases + 1 }
  else
    { s with total_releases := s.total_releases + 1 }

/-- The removal loop of `CommandBufferPool::ShrinkPool`: `k` times, pop
the front available buffer and delete it (by identity) from
`all_buffers_`. -/
def shrinkLoop : Nat → List Nat → List Nat → List Nat × List Nat
  | 0, av, al => (av, al)
  | _ + 1, [], al => ([], al)
  | k + 1, h :: t, al => shrinkLoop k t (al.filter (fun b => b != h))

/-- `CommandBufferPool::ShrinkPool`: if more than `initial_pool_size / 2`
buffers are available, remove the excess above that target from both the
available queue and the tracked total. -/
def ShrinkPool (cfg : PoolConfig) (s : PoolState) : PoolState :=
  let target_available := cfg.initial_pool_size / 2
  if s.available.length ≤ target_available then s
  else
    let to_remove := s.available.length - target_available
    let p := shrinkLoop to_remove s.available s.all
    { s with available := p.1
             all := p.2
             pool_shrinks := s.pool_shrinks + 1
             last_shrink_frame := s.current_frame }

/-- `CommandBufferPool::ExpandPool`: add `count` fresh buffers (capped so
the total does not exceed `max_pool_size`) to both sets. -/
def ExpandPool (cfg : PoolConfig) (s : PoolState) (count : Nat) : PoolState :=
  let count' := if cfg.max_pool_size < s.all.length + count
                then cfg.max_pool_size - s.all.length else count
  let fresh := (List.range count').map (fun i => s.next_allocation_id + i)
  { s with available := s.available ++ fresh
           all := s.all ++ fresh
           next_allocation_id := s.next_allocation_id + count'
           pool_expansions := s.pool_expansions + 1 }

def ShouldShrink (cfg : PoolConfig) (s : PoolState) : Bool :=
  if s.current_frame - s.last_shrink_frame < cfg.shrink_delay_frames then false
  else
    decide (cfg.initial_pool_size < s.all.length) &&
    decide (s.all.length * 3 / 4 < s.available.length)

/-- `CommandBufferPool::TickFrame`: advance the frame counter and run the
auto-shrink check. -/
def PoolTickFrame (cfg : PoolConfig) (s : PoolState) : PoolState :=
  let s1 := { s with current_frame := s.current_frame + 1 }
  if cfg.auto_shrink = true ∧ ShouldShrink cfg s1 = true then ShrinkPool cfg s1 else s1

structure PoolStats where
  total_buffers : Nat
  available_buffers : Nat
  active_buffers : Nat
deriving DecidableEq, Repr

/-- The count fields of `CommandBufferPool::GetStats`:
`active_buffers = total_buffers - available_buffers` (unsigned
subtraction, modelled truncated). -/
def GetPoolStats (s : PoolState) : PoolStats :=
  { total_buffers := s.all.length
    available_buffers := s.available.length
    active_buffers := s.all.length - s.available.length }

inductive PoolStep where
  | acquire
  | release (h : Nat)
  | expandPool (n : Nat)
  | shrinkPool
  | tick
deriving DecidableEq, Repr

/-- A sequence of pool calls, starting from a given state. -/
def runPool (cfg : PoolConfig) (s : PoolState) : List PoolStep → PoolState
  | [] => s
  | st :: rest =>
    match st with
    | .acquire => runPool cfg (AcquireBuffer cfg s).1 rest
    | .release h => runPool cfg (ReleaseBuffer s h) rest
    | .expandPool n => runPool cfg (ExpandPool cfg s n) rest
    | .shrinkPool => runPool cfg (ShrinkPool cfg s) rest
    | .tick => runPool cfg (PoolTickFrame cfg s) rest

/-- A call sequence is proper when every `release` hands back a buffer
the callers currently hold: one previously returned by `acquire` and not
yet released.  `active` threads the multiset of held handles. -/
def properPool (cfg : PoolConfig) (s : PoolState) (active : List Nat) :
    List PoolStep → Bool
  | [] => true
  | st :: rest =>
    match st with
    | .acquire =>
      properPool cfg (AcquireBuffer cfg s).1 ((AcquireBuffer cfg s).2 :: active) rest
    | .release h =>
      active.contains h && properPool cfg (ReleaseBuffer s h) (active.erase h) rest
    | .expandPool n => properPool cfg (ExpandPool cfg s n) active rest
    | .shrinkPool => properPool cfg (ShrinkPool cfg s) active rest
    | .tick => properPool cfg (PoolTickFrame cfg s) active rest

/-- The structural invariant of the pool against the multiset `A` of
currently held handles: no duplicates in either queue, every available
buffer is tracked, no held handle sits in the available queue, and every
known id is below the allocation counter. -/
def poolInv (s : PoolState) (A : List Nat) : Prop :=
  s.available.Nodup ∧ s.all.Nodup ∧ A.Nodup ∧
  (∀ x ∈ s.available, x ∈ s.all) ∧
  (∀ x ∈ A, x ∉ s.available) ∧
  (∀ x ∈ s.available, x < s.next_allocation_id) ∧
  (∀ x ∈ s.all, x < s.next_allocation_id) ∧
  (∀ x ∈ A, x < s.next_allocation_id)

/-! ## Texture Garbage Collector (`gl_texture_gc.h`, implementation in
the second half of `gl_command_buffer_pool.cpp`)

`tracked_textures_` is an `std::unordered_map`; its iteration order is
unspecified, and the association list below stands for one realizable
iteration order.  `std::sort` with a strict comparator leaves the order
of tie elements unspecified; it is modelled as a stable merge sort by
the reflexive closure of the comparator, one realizable outcome. -/

structure GCConfig where
  unused_frame_threshold : Nat := 60
  aggressive_mode : Bool := true
  aggressive_threshold : Nat := 30
  memory_pressure_mb : Nat := 512
  max_vram_target_mb : Nat := 1024
deriving DecidableEq, Repr

structure TextureInfo where
  size_bytes : Nat := 0
  last_used_frame : Nat := 0
  is_render_target : Bool := false
  usage_count : Nat := 0
deriving DecidableEq, Repr

structure GCState where
  current_frame : Nat := 0
  current_vram_usage : Nat := 0
  tracked : List (Nat × TextureInfo) := []
  total_textures_purged : Nat := 0
  total_vram_freed : Nat := 0
deriving DecidableEq, Repr

def mapFind : List (Nat × TextureInfo) → Nat → Option TextureInfo
  | [], _ => none
  | (k, v) :: t, id => if k = id then some v else mapFind t id

/-- `tracked_textures_[id] = info`: replace in place, or append. -/
def mapAssign : List (Nat × TextureInfo) → Nat → TextureInfo →
    List (Nat × TextureInfo)
  | [], id, info => [(id, info)]
  | (k, v) :: t, id, info =>
    if k = id then (id, info) :: t else (k, v) :: mapAssign t id info

def mapErase : List (Nat × TextureInfo) → Nat → List (Nat × TextureInfo)
  | [], _ => []
  | (k, v) :: t, id => if k = id then t else (k, v) :: mapErase t id

/-- Sum of the sizes of the tracked textures. -/
def trackedSum : List (Nat × TextureInfo) → Nat
  | [] => 0
  | (_, v) :: t => v.size_bytes + trackedSum t

def MarkTextureUsed (s : GCState) (id : Nat) : GCState :=
  match mapFind s.tracked id with
  | none => s
  | some info =>
    let info' := { info with
      last_used_frame := s.current_frame
      usage_count := info.usage_count + 1 }
    { s with tracked := mapAssign s.tracked id info' }

/-- `TextureGarbageCollector::RegisterTexture`: stores a fresh record
(last write wins) and adds the full size to the running estimate. -/
def RegisterTexture (s : GCState) (id : Nat) (size_bytes : Nat)
    (is_render_target : Bool) : GCState :=
  { s with
    tracked := mapAssign s.tracked id
      { size_bytes := size_bytes
        last_used_frame := s.current_frame
        is_render_target := is_render_target
        usage_count := 1 }
    current_vram_usage := s.current_vram_usage + size_bytes }

/-- `TextureGarbageCollector::UnregisterTexture`: removes the record and
subtracts its stored size from the running estimate. -/
def UnregisterTexture (s : GCState) (id : Nat) : GCState :=
  match mapFind s.tracked id with
  | none => s
  | some info =>
    { s with current_vram_usage := s.current_vram_usage - info.size_bytes
             tracked := mapErase s.tracked id }

def IsMemoryPressureHigh (cfg : GCConfig) (s : GCState) : Bool :=
  let vram_mb := s.current_vram_usage / 1024 / 1024
  decide (cfg.memory_pressure_mb < vram_mb) ||
  decide (cfg.max_vram_target_mb < vram_mb)

def GetEffectiveThreshold (cfg : GCConfig) (s : GCState) : Nat :=
  if cfg.aggressive_mode = true ∧ IsMemoryPressureHigh cfg s = true then
    cfg.aggressive_threshold
  else cfg.unused_frame_threshold

/-- `TextureGarbageCollector::ShouldPurgeTexture`. -/
def ShouldPurgeTexture (cfg : GCConfig) (s : GCState) (info : TextureInfo)
    (frames_unused : Nat) : Bool :=
  let threshold := GetEffectiveThreshold cfg s
  if frames_unused < threshold then false
  else if info.is_render_target = true then decide (threshold * 2 < frames_unused)
  else if 100 < info.usage_count then decide (threshold + 30 < frames_unused)
  else if IsMemoryPressureHigh cfg s = true then decide (threshold / 2 < frames_unused)
  else decide (threshold ≤ frames_unused)

/-- Stable insertion of `x` into a list sorted by the total preorder
`le`: `x` goes in front of the first element it compares `le` to, so
elements equivalent to `x` that were already present stay in front. -/
def sortInsert (le : α → α → Bool) (x : α) : List α → List α
  | [] => [x]
  | y :: ys => if le x y then x :: y :: ys else y :: sortInsert le x ys

/-- Stable sort by a total preorder, used to model `std::sort` with a
strict comparator `lt` (as `le a b := ! lt b a`): the stable outcome is
one of the permutations `std::sort` may produce. -/
def stableSortBy (le : α → α → Bool) : List α → List α
  | [] => []
  | x :: xs => sortInsert le x (stableSortBy le xs)

def infoOf (tracked : List (Nat × TextureInfo)) (id : Nat) : TextureInfo :=
  (mapFind tracked id).getD ⟨0, 0, false, 0⟩

/-- The strict comparator of
`TextureGarbageCollector::SortTexturesByPriority`: non-render-targets
first, then larger sizes, then lower usage counts. -/
def purgeBefore (tracked : List (Nat × TextureInfo)) (a b : Nat) : Bool :=
  let ia := infoOf tracked a
  let ib := infoOf tracked b
  if ia.is_render_target ≠ ib.is_render_target then
    ia.is_render_target = false && ib.is_render_target = true
  else if ia.size_bytes ≠ ib.size_bytes then
    decide (ib.size_bytes < ia.size_bytes)
  else
    decide (ia.usage_count < ib.usage_count)

def SortTexturesByPriority (tracked : List (Nat × TextureInfo))
    (ids : List Nat) : List Nat :=
  stableSortBy (fun a b => ! purgeBefore tracked b a) ids

/-- `TextureGarbageCollector::GetTexturesToPurge`: collect every tracked
texture passing `ShouldPurgeTexture`, sort by priority, truncate under
memory pressure, update purge statistics, return the list. -/
def GetTexturesToPurge (cfg : GCConfig) (s : GCState) : GCState × List Nat :=
  let to_purge := (s.tracked.filter (fun p =>
    ShouldPurgeTexture cfg s p.2 (s.current_frame - p.2.last_used_frame))).map (·.1)
  let sorted := SortTexturesByPriority s.tracked to_purge
  let final := if IsMemoryPressureHigh cfg s = true ∧ 10 < sorted.length
               then sorted.take (min sorted.length 50) else sorted
  let s' := final.foldl (fun st id =>
    match mapFind st.tracked id with
    | some info =>
      { st with total_textures_purged := st.total_textures_purged + 1
                total_vram_freed := st.total_vram_freed + info.size_bytes }
    | none => st) s
  (s', final)

/-- The greedy unregister loop of `TextureGarbageCollector::ForceCleanup`:
stops as soon as the freed total reaches the target. -/
def forceLoop (target_bytes : Nat) : List (Nat × Nat) → Nat → GCState → GCState
  | [], _, s => s
  | (id, _) :: rest, freed, s =>
    if target_bytes ≤ freed then s
    else
      match mapFind s.tracked id with
      | some info =>
        forceLoop target_bytes rest (freed + info.size_bytes) (UnregisterTexture s id)
      | none => forceLoop target_bytes rest freed s

/-- `TextureGarbageCollector::ForceCleanup`: non-render-targets unused
for more than 10 frames, oldest first, unregistered until the freed
bytes reach `target_free_mb`. -/
def ForceCleanup (s : GCState) (target_free_mb : Nat) : GCState :=
  let candidates := (s.tracked.filter (fun p =>
      !p.2.is_render_target && decide (10 < s.current_frame - p.2.last_used_frame))).map
    (fun p => (p.1, s.current_frame - p.2.last_used_frame))
  let sorted := stableSortBy (fun a b => decide (b.2 ≤ a.2)) candidates
  forceLoop (target_free_mb * 1024 * 1024) sorted 0 s

def GCTickFrame (s : GCState) : GCState :=
  { s with current_frame := s.current_frame + 1 }

end Eden


/-! ## Theorems -/

namespace Eden

/-- C1 (counterexample): on a freshly constructed controller with the
MidRange preset, the rising sequence 800 → 1300 → 1470 MiB over the first
three frames triggers no cleanup and no emergency purge at all (the claim
asserts exactly one of each): both 60/120-frame interval gates measure
against the initial `last_cleanup_frame_ = last_emergency_frame_ = 0`, so
nothing can fire before frame 60. -/
theorem claim1_counterexample :
    (runVM midRangeConfig
      { cleanup_callbacks := [7], emergency_callback_count := 1 }
      [.updateUsage (800 * 1024 * 1024), .tickFrame,
       .updateUsage (1300 * 1024 * 1024), .tickFrame,
       .updateUsage (1470 * 1024 * 1024)]).cleanup_count = 0 ∧
    (runVM midRangeConfig
      { cleanup_callbacks := [7], emergency_callback_count := 1 }
      [.updateUsage (800 * 1024 * 1024), .tickFrame,
       .updateUsage (1300 * 1024 * 1024), .tickFrame,
       .updateUsage (1470 * 1024 * 1024)]).emergency_purge_count = 0 := by
  decide

/-- C1 (amended): run the same rising sequence 800 → 1300 → 1470 MiB on
frames 118 / 119 / 120 — the first frames at which both interval gates
(60 frames since `last_cleanup_frame_ = 0`, 120 frames since
`last_emergency_frame_ = 0`) are open for the whole scenario — with no
prior cleanup or emergency purge.  Then exactly one cleanup fires, at the
1300 MiB step, and exactly one emergency purge fires, at the 1470 MiB
step.  The emergency purge invokes the cleanup pass, but that pass is
suppressed by the 60-frame cleanup gate (the cleanup of the previous
frame), so the cleanup callbacks run exactly once in total
(`total_bytes_freed = 7`, the single registered callback's report). -/
theorem claim1_theorem :
    (runVM midRangeConfig
      { current_frame := 118, cleanup_callbacks := [7], emergency_callback_count := 1 }
      [.updateUsage (800 * 1024 * 1024), .tickFrame,
       .updateUsage (1300 * 1024 * 1024)]).cleanup_count = 1 ∧
    (runVM midRangeConfig
      { current_frame := 118, cleanup_callbacks := [7], emergency_callback_count := 1 }
      [.updateUsage (800 * 1024 * 1024), .tickFrame,
       .updateUsage (1300 * 1024 * 1024)]).emergency_purge_count = 0 ∧
    (runVM midRangeConfig
      { current_frame := 118, cleanup_callbacks := [7], emergency_callback_count := 1 }
      [.updateUsage (800 * 1024 * 1024), .tickFrame,
       .updateUsage (1300 * 1024 * 1024), .tickFrame,
       .updateUsage (1470 * 1024 * 1024)]).cleanup_count = 1 ∧
    (runVM midRangeConfig
      { current_frame := 118, cleanup_callbacks := [7], emergency_callback_count := 1 }
      [.updateUsage (800 * 1024 * 1024), .tickFrame,
       .updateUsage (1300 * 1024 * 1024), .tickFrame,
       .updateUsage (1470 * 1024 * 1024)]).emergency_purge_count = 1 ∧
    (runVM midRangeConfig
      { current_frame := 118, cleanup_callbacks := [7], emergency_callback_count := 1 }
      [.updateUsage (800 * 1024 * 1024), .tickFrame,
       .updateUsage (1300 * 1024 * 1024), .tickFrame,
       .updateUsage (1470 * 1024 * 1024)]).total_bytes_freed = 7 := by
  decide

/-- C2 (counterexample): aggressive mode on, aggressive threshold 30,
memory pressure high (600 MiB > 512 MiB).  The single tracked texture is
non-pinned with `usage_count = 1 ≤ 100` and `frames_unused = 16`, which
exceeds `effectiveThreshold / 2 = 15`, so the claim says it is a purge
candidate; but `GetTexturesToPurge` returns the empty list, because
`ShouldPurgeTexture` first requires `frames_unused ≥ threshold = 30`. -/
theorem claim2_counterexample :
    IsMemoryPressureHigh {} { current_frame := 16, current_vram_usage := 600 * 1024 * 1024, tracked := [(7, { size_bytes := 1024 * 1024, last_used_frame := 0, usage_count := 1 })] } = true ∧
    GetEffectiveThreshold {} { current_frame := 16, current_vram_usage := 600 * 1024 * 1024, tracked := [(7, { size_bytes := 1024 * 1024, last_used_frame := 0, usage_count := 1 })] } = 30 ∧
    30 / 2 < 16 ∧
    (GetTexturesToPurge {} { current_frame := 16, current_vram_usage := 600 * 1024 * 1024, tracked := [(7, { size_bytes := 1024 * 1024, last_used_frame := 0, usage_count := 1 })] }).2 = [] := by
  decide

/-- C2 (amended): under the engine's pressure predicate, a non-pinned
resource with `useCount ≤ 100` passes the purge predicate iff its
`framesUnused` is at least the effective threshold AND exceeds half of
it; the initial `frames_unused < threshold` rejection makes the
half-threshold test redundant whenever the threshold is positive, so the
spec's "only `framesUnused > effectiveThreshold / 2`" relaxation is
unreachable. -/
theorem claim2_theorem (cfg : GCConfig) (s : GCState) (info : TextureInfo)
    (fu : Nat)
    (hp : IsMemoryPressureHigh cfg s = true)
    (hrt : info.is_render_target = false)
    (huc : info.usage_count ≤ 100) :
    ShouldPurgeTexture cfg s info fu = true ↔
      (GetEffectiveThreshold cfg s ≤ fu ∧ GetEffectiveThreshold cfg s / 2 < fu) := by
  simp only [ShouldPurgeTexture, hrt, hp]
  split_ifs with h1 h2 h3 <;> simp_all <;> omega

/-- C2 witness for `claim2_theorem`. -/
theorem claim2_witness :
    IsMemoryPressureHigh {} { current_vram_usage := 600 * 1024 * 1024 } = true ∧
    ({} : TextureInfo).is_render_target = false ∧
    ({} : TextureInfo).usage_count ≤ 100 ∧
    (ShouldPurgeTexture {} { current_vram_usage := 600 * 1024 * 1024 } {} 40 = true ↔
      (GetEffectiveThreshold {} { current_vram_usage := 600 * 1024 * 1024 } ≤ 40 ∧
       GetEffectiveThreshold {} { current_vram_usage := 600 * 1024 * 1024 } / 2 < 40)) :=
  ⟨by decide, by decide, by decide,
   claim2_theorem {} { current_vram_usage := 600 * 1024 * 1024 } {} 40
     (by decide) (by decide) (by decide)⟩

theorem ExecuteCleanup_epc (cfg : VMConfig) (s : VMState) :
    (ExecuteCleanup cfg s).emergency_purge_count = s.emergency_purge_count := by
  unfold ExecuteCleanup; split_ifs <;> rfl

theorem ExecuteCleanup_frame (cfg : VMConfig) (s : VMState) :
    (ExecuteCleanup cfg s).current_frame = s.current_frame := by
  unfold ExecuteCleanup; split_ifs <;> rfl

/-- C3 (counterexample): on a freshly constructed controller (frame 0,
cleanup and emergency callbacks registered, both features enabled),
`RequestCleanup()` invokes no cleanup callback and `ForceEmergencyPurge()`
invokes no emergency callback: both delegate to the gated
`ExecuteCleanup` / `ExecuteEmergencyPurge`, whose 60/120-frame interval
gates are still closed. -/
theorem claim3_counterexample :
    (RequestCleanup midRangeConfig
      { cleanup_callbacks := [7], emergency_callback_count := 1 }).cleanup_count = 0 ∧
    (ForceEmergencyPurge midRangeConfig
      { cleanup_callbacks := [7], emergency_callback_count := 1 }).emergency_purge_count = 0 := by
  decide

/-- C3 (amended): `RequestCleanup()` and `ForceEmergencyPurge()` are
manual but NOT ungated: they run the registered callbacks exactly when
the corresponding feature flag is enabled and the minimum interval
(60 frames since the last cleanup, 120 frames since the last emergency
purge) has elapsed, and do nothing otherwise. -/
theorem claim3_theorem (cfg : VMConfig) (s : VMState) :
    (RequestCleanup cfg s).cleanup_count =
      (if cfg.enable_auto_cleanup = true ∧ 60 ≤ s.current_frame - s.last_cleanup_frame
       then s.cleanup_count + 1 else s.cleanup_count) ∧
    (ForceEmergencyPurge cfg s).emergency_purge_count =
      (if cfg.enable_emergency_purge = true ∧ 120 ≤ s.current_frame - s.last_emergency_frame
       then s.emergency_purge_count + 1 else s.emergency_purge_count) := by
  constructor
  · unfold RequestCleanup ExecuteCleanup
    split_ifs <;> simp_all <;> omega
  · unfold ForceEmergencyPurge ExecuteEmergencyPurge
    split_ifs <;> simp_all [ExecuteCleanup_epc] <;> omega

/-- C8 (counterexample): the same three resources (100 / 50 / 30 MiB
non-pinned, unused for 20 frames) registered so that iteration order
yields 30, 50, 100: all tie at 20 frames unused, the oldest-first sort
is a no-op on ties, and the greedy loop frees 30 + 50 (= 80 < 120) and
then 100, unregistering ALL three — the 30 MiB resource does not stay
tracked as the claim asserts. -/
theorem claim8_counterexample :
    ((ForceCleanup
      { current_frame := 20, current_vram_usage := 180 * 1024 * 1024, tracked :=
        [(3, { size_bytes := 30 * 1024 * 1024, last_used_frame := 0, usage_count := 1 }),
         (2, { size_bytes := 50 * 1024 * 1024, last_used_frame := 0, usage_count := 1 }),
         (1, { size_bytes := 100 * 1024 * 1024, last_used_frame := 0, usage_count := 1 })] }
      120).tracked.map (fun p => p.1)) = [] := by
  decide

/-- C8 (amended): the claimed outcome does hold for the iteration order
100, 50, 30 (e.g. registration order with the largest first): all three
resources tie on `framesUnused = 20 > 10`, so the oldest-first sort
leaves the iteration order, and `ForceCleanup(120 MiB)` unregisters
exactly the 100 MiB and the 50 MiB resources (freeing 150 MiB ≥ 120 MiB)
and leaves the 30 MiB resource tracked.  In general the outcome of this
scenario depends on the unordered-map iteration order, which the code
does not control (see the counterexample). -/
theorem claim8_theorem :
    ((ForceCleanup
      { current_frame := 20, current_vram_usage := 180 * 1024 * 1024, tracked :=
        [(1, { size_bytes := 100 * 1024 * 1024, last_used_frame := 0, usage_count := 1 }),
         (2, { size_bytes := 50 * 1024 * 1024, last_used_frame := 0, usage_count := 1 }),
         (3, { size_bytes := 30 * 1024 * 1024, last_used_frame := 0, usage_count := 1 })] }
      120).tracked.map (fun p => p.1)) = [3] ∧
    (ForceCleanup
      { current_frame := 20, current_vram_usage := 180 * 1024 * 1024, tracked :=
        [(1, { size_bytes := 100 * 1024 * 1024, last_used_frame := 0, usage_count := 1 }),
         (2, { size_bytes := 50 * 1024 * 1024, last_used_frame := 0, usage_count := 1 }),
         (3, { size_bytes := 30 * 1024 * 1024, last_used_frame := 0, usage_count := 1 })] }
      120).current_vram_usage = 30 * 1024 * 1024 := by
  decide

end Eden

namespace Eden

/-- C7: monotone pressure: for a fixed configuration with a positive
cap, a strictly smaller usage never yields a strictly larger pressure
level (`PressureLevel` ordered None < Low < Medium < High < Critical via
`MemoryPressure.toNat`). -/
theorem claim7_theorem (cfg : VMConfig) (s t : VMState)
    (hcap : 0 < cfg.vram_cap_bytes)
    (hlt : s.current_usage < t.current_usage) :
    (CalculatePressure cfg s).toNat ≤ (CalculatePressure cfg t).toNat := by
  have hmono : GetUsagePercentage cfg s ≤ GetUsagePercentage cfg t := by
    unfold GetUsagePercentage
    rw [Rat.mkRat_eq_div, Rat.mkRat_eq_div]
    have hc : (0 : ℚ) < (cfg.vram_cap_bytes : ℚ) := by exact_mod_cast hcap
    have hu : ((s.current_usage : Int) : ℚ) ≤ ((t.current_usage : Int) : ℚ) := by
      exact_mod_cast Nat.le_of_lt hlt
    exact div_le_div_of_nonneg_right hu hc.le
  simp only [CalculatePressure]
  split_ifs <;> simp only [MemoryPressure.toNat] <;> first | omega | (exfalso; linarith)

/-- C7 witness for `claim7_theorem`: MidRange config, 800 MiB versus
1470 MiB. -/
theorem claim7_witness :
    0 < midRangeConfig.vram_cap_bytes ∧
    ({ current_usage := 800 * 1024 * 1024 } : VMState).current_usage <
      ({ current_usage := 1470 * 1024 * 1024 } : VMState).current_usage ∧
    (CalculatePressure midRangeConfig { current_usage := 800 * 1024 * 1024 }).toNat ≤
      (CalculatePressure midRangeConfig { current_usage := 1470 * 1024 * 1024 }).toNat :=
  ⟨by decide, by decide,
   claim7_theorem midRangeConfig
     { current_usage := 800 * 1024 * 1024 } { current_usage := 1470 * 1024 * 1024 }
     (by decide) (by decide)⟩

end Eden


namespace Eden

theorem ExecuteCleanup_gated (cfg : VMConfig) (s : VMState)
    (h : s.current_frame < s.last_cleanup_frame + 60) :
    ExecuteCleanup cfg s = s := by
  unfold ExecuteCleanup
  split_ifs with h1 h2
  · rfl
  · rfl
  · omega

theorem ExecuteEmergencyPurge_pres (cfg : VMConfig) (s : VMState)
    (h : s.current_frame < s.last_cleanup_frame + 60) :
    (ExecuteEmergencyPurge cfg s).cleanup_count = s.cleanup_count ∧
    (ExecuteEmergencyPurge cfg s).last_cleanup_frame = s.last_cleanup_frame ∧
    (ExecuteEmergencyPurge cfg s).current_frame = s.current_frame := by
  unfold ExecuteEmergencyPurge
  rw [ExecuteCleanup_gated cfg s h]
  split_ifs with h1 h2
  · exact ⟨rfl, rfl, rfl⟩
  · exact ⟨rfl, rfl, rfl⟩
  · exact ⟨rfl, rfl, rfl⟩

theorem HandlePressureChange_pres (cfg : VMConfig) (s : VMState)
    (np : MemoryPressure)
    (h : s.current_frame < s.last_cleanup_frame + 60) :
    (HandlePressureChange cfg s np).cleanup_count = s.cleanup_count ∧
    (HandlePressureChange cfg s np).last_cleanup_frame = s.last_cleanup_frame ∧
    (HandlePressureChange cfg s np).current_frame = s.current_frame := by
  unfold HandlePressureChange
  rw [ExecuteCleanup_gated cfg s h]
  split_ifs with h1 h2 h3
  · exact ExecuteEmergencyPurge_pres cfg s h
  · exact ⟨rfl, rfl, rfl⟩
  · exact ExecuteEmergencyPurge_pres cfg s h
  · exact ⟨rfl, rfl, rfl⟩

theorem UpdatePressurePhase_pres (cfg : VMConfig) (s : VMState)
    (h : s.current_frame < s.last_cleanup_frame + 60) :
    (UpdatePressurePhase cfg s).cleanup_count = s.cleanup_count ∧
    (UpdatePressurePhase cfg s).last_cleanup_frame = s.last_cleanup_frame ∧
    (UpdatePressurePhase cfg s).current_frame = s.current_frame := by
  simp only [UpdatePressurePhase]
  split_ifs with h1
  · exact HandlePressureChange_pres cfg s _ h
  · exact ⟨rfl, rfl, rfl⟩

theorem UpdateGatePhase_pres (cfg : VMConfig) (s : VMState)
    (h : s.current_frame < s.last_cleanup_frame + 60) :
    (UpdateGatePhase cfg s).cleanup_count = s.cleanup_count ∧
    (UpdateGatePhase cfg s).last_cleanup_frame = s.last_cleanup_frame ∧
    (UpdateGatePhase cfg s).current_frame = s.current_frame := by
  have hg := ExecuteCleanup_gated cfg s h
  simp only [UpdateGatePhase, hg, ite_self]
  split_ifs with h1
  · exact ExecuteEmergencyPurge_pres cfg s h
  · exact ⟨rfl, rfl, rfl⟩

theorem UpdateUsage_pres (cfg : VMConfig) (s : VMState) (b : Nat)
    (h : s.current_frame < s.last_cleanup_frame + 60) :
    (UpdateUsage cfg s b).cleanup_count = s.cleanup_count ∧
    (UpdateUsage cfg s b).last_cleanup_frame = s.last_cleanup_frame ∧
    (UpdateUsage cfg s b).current_frame = s.current_frame := by
  unfold UpdateUsage
  have h1 := UpdatePressurePhase_pres cfg
    { s with
      current_usage := b
      peak_usage := if s.peak_usage < b then b else s.peak_usage } h
  have h2 := UpdateGatePhase_pres cfg
    (UpdatePressurePhase cfg
      { s with
        current_usage := b
        peak_usage := if s.peak_usage < b then b else s.peak_usage })
    (by rw [h1.2.2, h1.2.1]; exact h)
  exact ⟨h2.1.trans h1.1, h2.2.1.trans h1.2.1, h2.2.2.trans h1.2.2⟩

/-- While fewer than 60 frames have passed since `last_cleanup_frame`,
no call sequence of `UpdateUsage` / `TickFrame` / `RequestCleanup` /
`ForceEmergencyPurge` can change `cleanup_count_` or
`last_cleanup_frame_`. -/
theorem runVM_gate_pres (cfg : VMConfig) :
    ∀ (ops : List VMOp) (s : VMState),
    s.current_frame + numTicks ops < s.last_cleanup_frame + 60 →
    (runVM cfg s ops).cleanup_count = s.cleanup_count ∧
    (runVM cfg s ops).last_cleanup_frame = s.last_cleanup_frame := by
  intro ops
  induction ops with
  | nil => intro s h; exact ⟨rfl, rfl⟩
  | cons op rest ih =>
    intro s h
    cases op with
    | updateUsage b =>
      have hp := UpdateUsage_pres cfg s b (by simp [numTicks] at h; omega)
      have hr := ih (UpdateUsage cfg s b)
        (by simp only [numTicks] at h ⊢; omega)
      exact ⟨hr.1.trans hp.1, hr.2.trans hp.2.1⟩
    | tickFrame =>
      have hr := ih (VMTickFrame s)
        (by simp only [numTicks, VMTickFrame] at h ⊢; omega)
      exact ⟨hr.1, hr.2⟩
    | requestCleanup =>
      have hg : RequestCleanup cfg s = s :=
        ExecuteCleanup_gated cfg s (by simp [numTicks] at h; omega)
      show (runVM cfg (RequestCleanup cfg s) rest).cleanup_count = s.cleanup_count ∧
        (runVM cfg (RequestCleanup cfg s) rest).last_cleanup_frame = s.last_cleanup_frame
      rw [hg]
      exact ih s (by simp only [numTicks] at h; omega)
    | forceEmergencyPurge =>
      have hp := ExecuteEmergencyPurge_pres cfg s (by simp [numTicks] at h; omega)
      have hr := ih (ForceEmergencyPurge cfg s)
        (by simp only [numTicks] at h ⊢
            unfold ForceEmergencyPurge
            omega)
      exact ⟨hr.1.trans hp.1, hr.2.trans hp.2.1⟩

/-- C5: gate correctness.  If the last cleanup happened at frame `f`
(`last_cleanup_frame = f`) and the whole call sequence — `UpdateUsage`
every frame, frame advances via `TickFrame`, even manual
`RequestCleanup` / `ForceEmergencyPurge` calls — stays strictly before
frame `f + 60` (the hard-coded `cleanup_min_interval` of 60 frames),
then `cleanup_count_` never changes, i.e. the cleanup callbacks are
never invoked again, regardless of how high the usage values are. -/
theorem claim5_theorem (cfg : VMConfig) (s : VMState) (f : Nat)
    (ops : List VMOp)
    (hf : s.last_cleanup_frame = f)
    (h : s.current_frame + numTicks ops < f + 60) :
    (runVM cfg s ops).cleanup_count = s.cleanup_count :=
  (runVM_gate_pres cfg ops s (by omega)).1

/-- C5 witness for `claim5_theorem`: a state that has just cleaned at
frame 100, hammered with above-threshold `UpdateUsage` calls for the
next frames. -/
theorem claim5_witness :
    ({ current_frame := 100, last_cleanup_frame := 100, cleanup_count := 1,
       cleanup_callbacks := [7] } : VMState).last_cleanup_frame = 100 ∧
    ({ current_frame := 100, last_cleanup_frame := 100, cleanup_count := 1,
       cleanup_callbacks := [7] } : VMState).current_frame +
      numTicks [.updateUsage (1300 * 1024 * 1024), .tickFrame,
                .updateUsage (1300 * 1024 * 1024), .tickFrame,
                .updateUsage (1300 * 1024 * 1024)] < 100 + 60 ∧
    (runVM midRangeConfig
      { current_frame := 100, last_cleanup_frame := 100, cleanup_count := 1,
        cleanup_callbacks := [7] }
      [.updateUsage (1300 * 1024 * 1024), .tickFrame,
       .updateUsage (1300 * 1024 * 1024), .tickFrame,
       .updateUsage (1300 * 1024 * 1024)]).cleanup_count =
    ({ current_frame := 100, last_cleanup_frame := 100, cleanup_count := 1,
       cleanup_callbacks := [7] } : VMState).cleanup_count :=
  ⟨rfl, by decide,
   claim5_theorem midRangeConfig
     { current_frame := 100, last_cleanup_frame := 100, cleanup_count := 1,
       cleanup_callbacks := [7] }
     100
     [.updateUsage (1300 * 1024 * 1024), .tickFrame,
      .updateUsage (1300 * 1024 * 1024), .tickFrame,
      .updateUsage (1300 * 1024 * 1024)]
     rfl (by decide)⟩

end Eden

namespace Eden

theorem mapFind_mapAssign_self (tr : List (Nat × TextureInfo)) (id : Nat)
    (info : TextureInfo) :
    mapFind (mapAssign tr id info) id = some info := by
  induction tr with
  | nil => simp [mapAssign, mapFind]
  | cons p t ih =>
    obtain ⟨k, v⟩ := p
    by_cases hk : k = id <;> simp [mapAssign, mapFind, hk, ih]

theorem trackedSum_mapAssign (tr : List (Nat × TextureInfo)) (id : Nat)
    (info old : TextureInfo) (hf : mapFind tr id = some old) :
    trackedSum (mapAssign tr id info) + old.size_bytes =
      trackedSum tr + info.size_bytes := by
  induction tr with
  | nil => simp [mapFind] at hf
  | cons p t ih =>
    obtain ⟨k, v⟩ := p
    by_cases hk : k = id
    · simp only [mapFind, hk, if_pos rfl] at hf
      obtain rfl : v = old := by injection hf
      simp only [mapAssign, hk, if_pos rfl, trackedSum]
      omega
    · simp only [mapFind, if_neg hk] at hf
      simp only [mapAssign, if_neg hk, trackedSum]
      have := ih hf
      omega

theorem trackedSum_mapErase (tr : List (Nat × TextureInfo)) (id : Nat)
    (old : TextureInfo) (hf : mapFind tr id = some old) :
    trackedSum (mapErase tr id) + old.size_bytes = trackedSum tr := by
  induction tr with
  | nil => simp [mapFind] at hf
  | cons p t ih =>
    obtain ⟨k, v⟩ := p
    by_cases hk : k = id
    · subst hk
      simp only [mapFind, if_pos rfl] at hf
      obtain rfl : v = old := by injection hf
      simp [mapErase, trackedSum]
      omega
    · simp only [mapFind, if_neg hk] at hf
      simp only [mapErase, if_neg hk, trackedSum]
      have := ih hf
      omega

/-- C10: re-registering a tracked id replaces the stored record (last
write wins) but adds the full new size to the running VRAM estimate
without subtracting the old one; consequently, for any engine state
whose estimate currently equals the sum of the tracked sizes,
re-registering the id with size `s_new` and then unregistering it leaves
the estimate exceeding the sum of the remaining tracked sizes by exactly
the old size. -/
theorem claim10_theorem (s : GCState) (id : Nat) (old : TextureInfo)
    (s_new : Nat) (pinned : Bool)
    (hf : mapFind s.tracked id = some old)
    (hsum : s.current_vram_usage = trackedSum s.tracked) :
    (RegisterTexture s id s_new pinned).current_vram_usage =
      s.current_vram_usage + s_new ∧
    mapFind (RegisterTexture s id s_new pinned).tracked id =
      some { size_bytes := s_new, last_used_frame := s.current_frame,
             is_render_target := pinned, usage_count := 1 } ∧
    (UnregisterTexture (RegisterTexture s id s_new pinned) id).current_vram_usage =
      trackedSum (UnregisterTexture (RegisterTexture s id s_new pinned) id).tracked +
        old.size_bytes := by
  have hfind := mapFind_mapAssign_self s.tracked id
    { size_bytes := s_new, last_used_frame := s.current_frame,
      is_render_target := pinned, usage_count := 1 }
  refine ⟨rfl, hfind, ?_⟩
  have e1 := trackedSum_mapAssign s.tracked id
    { size_bytes := s_new, last_used_frame := s.current_frame,
      is_render_target := pinned, usage_count := 1 } old hf
  have e2 := trackedSum_mapErase (mapAssign s.tracked id
    { size_bytes := s_new, last_used_frame := s.current_frame,
      is_render_target := pinned, usage_count := 1 }) id
    { size_bytes := s_new, last_used_frame := s.current_frame,
      is_render_target := pinned, usage_count := 1 } hfind
  simp only [UnregisterTexture, RegisterTexture, hfind]
  simp only [trackedSum] at e1 e2 ⊢
  omega

/-- C10 witness for `claim10_theorem`: one tracked resource of 10 bytes
re-registered with 4 bytes and unregistered. -/
theorem claim10_witness :
    mapFind ({ current_vram_usage := 10, tracked := [(5, { size_bytes := 10, last_used_frame := 0, usage_count := 1 })] } : GCState).tracked 5 =
      some { size_bytes := 10, last_used_frame := 0, usage_count := 1 } ∧
    ({ current_vram_usage := 10, tracked := [(5, { size_bytes := 10, last_used_frame := 0, usage_count := 1 })] } : GCState).current_vram_usage =
      trackedSum ({ current_vram_usage := 10, tracked := [(5, { size_bytes := 10, last_used_frame := 0, usage_count := 1 })] } : GCState).tracked ∧
    ((RegisterTexture { current_vram_usage := 10, tracked := [(5, { size_bytes := 10, last_used_frame := 0, usage_count := 1 })] } 5 4 false).current_vram_usage =
        ({ current_vram_usage := 10, tracked := [(5, { size_bytes := 10, last_used_frame := 0, usage_count := 1 })] } : GCState).current_vram_usage + 4 ∧
      mapFind (RegisterTexture { current_vram_usage := 10, tracked := [(5, { size_bytes := 10, last_used_frame := 0, usage_count := 1 })] } 5 4 false).tracked 5 =
        some { size_bytes := 4, last_used_frame := 0, is_render_target := false, usage_count := 1 } ∧
      (UnregisterTexture (RegisterTexture { current_vram_usage := 10, tracked := [(5, { size_bytes := 10, last_used_frame := 0, usage_count := 1 })] } 5 4 false) 5).current_vram_usage =
        trackedSum (UnregisterTexture (RegisterTexture { current_vram_usage := 10, tracked := [(5, { size_bytes := 10, last_used_frame := 0, usage_count := 1 })] } 5 4 false) 5).tracked + 10) :=
  ⟨by decide, by decide,
   claim10_theorem
     { current_vram_usage := 10, tracked := [(5, { size_bytes := 10, last_used_frame := 0, usage_count := 1 })] }
     5 { size_bytes := 10, last_used_frame := 0, usage_count := 1 } 4 false
     (by decide) (by decide)⟩

end Eden

namespace Eden

/-- Full specification of the shrink removal loop: it preserves
`Nodup`-ness of both lists, removed buffers leave both sets, survivors
were already present, and when `k` does not exceed the available count
exactly `k` buffers leave each set. -/
theorem shrinkLoop_spec : ∀ (k : Nat) (av al : List Nat),
    av.Nodup → al.Nodup → (∀ x ∈ av, x ∈ al) →
    ((shrinkLoop k av al).1.Nodup ∧ (shrinkLoop k av al).2.Nodup ∧
     (∀ x ∈ (shrinkLoop k av al).1, x ∈ (shrinkLoop k av al).2) ∧
     (∀ x ∈ (shrinkLoop k av al).1, x ∈ av) ∧
     (∀ x ∈ (shrinkLoop k av al).2, x ∈ al) ∧
     (k ≤ av.length →
       (shrinkLoop k av al).1.length = av.length - k ∧
       (shrinkLoop k av al).2.length = al.length - k)) := by
  intro k
  induction k with
  | zero =>
    intro av al h1 h2 h3
    exact ⟨h1, h2, h3, fun x hx => hx, fun x hx => hx, fun _ => ⟨rfl, rfl⟩⟩
  | succ n ih =>
    intro av al h1 h2 h3
    cases av with
    | nil =>
      refine ⟨List.nodup_nil, h2, ?_, ?_, fun x hx => hx, ?_⟩
      · intro x hx; cases hx
      · intro x hx; cases hx
      · intro hk; cases hk
    | cons hd tl =>
      have hhd : hd ∈ al := h3 hd (List.mem_cons_self hd tl)
      have htl_nd : tl.Nodup := (List.nodup_cons.mp h1).2
      have hhd_ntl : hd ∉ tl := (List.nodup_cons.mp h1).1
      have hal' : (al.filter (fun b => b != hd)).Nodup := h2.filter _
      have hsub : ∀ x ∈ tl, x ∈ al.filter (fun b => b != hd) := by
        intro x hx
        apply List.mem_filter.mpr
        refine ⟨h3 x (List.mem_cons_of_mem _ hx), ?_⟩
        have hne : x ≠ hd := fun e => hhd_ntl (e ▸ hx)
        simp [hne]
      have spec := ih tl (al.filter (fun b => b != hd)) htl_nd hal' hsub
      have hred : shrinkLoop (n + 1) (hd :: tl) al =
          shrinkLoop n tl (al.filter (fun b => b != hd)) := rfl
      rw [hred]
      refine ⟨spec.1, spec.2.1, spec.2.2.1, ?_, ?_, ?_⟩
      · intro x hx
        exact List.mem_cons_of_mem _ (spec.2.2.2.1 x hx)
      · intro x hx
        exact List.mem_of_mem_filter (spec.2.2.2.2.1 x hx)
      · intro hk
        have hk' : n ≤ tl.length := by
          simp only [List.length_cons] at hk
          omega
        have hflen : (al.filter (fun b => b != hd)).length = al.length - 1 := by
          rw [← h2.erase_eq_filter hd]
          have := List.length_erase_add_one hhd
          omega
        obtain ⟨e1, e2⟩ := spec.2.2.2.2.2 hk'
        have hpos : 0 < al.length := List.length_pos_of_mem hhd
        refine ⟨?_, ?_⟩
        · rw [e1]; simp only [List.length_cons]; omega
        · rw [e2, hflen]; omega

/-- C4 (amended): whenever the shrink path actually runs (the available
count exceeds `initial_pool_size / 2`), `ShrinkPool` removes
`available − initial_pool_size / 2` buffers from the available queue and
from the tracked total, leaving exactly `initial_pool_size / 2`
available — NOT "half of the excess down to the initial pool size".
The tracked total is therefore reduced below the initial pool size
whenever `total − (available − initial/2) < initial`; in the spec's own
scenario (initial 16, total 20 fully released) it shrinks the total to
8, not back toward 16 (see the counterexample). -/
theorem claim4_theorem (cfg : PoolConfig) (s : PoolState)
    (h1 : s.available.Nodup) (h2 : s.all.Nodup)
    (h3 : ∀ x ∈ s.available, x ∈ s.all)
    (hgt : cfg.initial_pool_size / 2 < s.available.length) :
    (ShrinkPool cfg s).available.length = cfg.initial_pool_size / 2 ∧
    (ShrinkPool cfg s).all.length =
      s.all.length - (s.available.length - cfg.initial_pool_size / 2) := by
  have spec := shrinkLoop_spec (s.available.length - cfg.initial_pool_size / 2)
    s.available s.all h1 h2 h3
  obtain ⟨e1, e2⟩ := spec.2.2.2.2.2 (by omega)
  simp only [ShrinkPool]
  rw [if_neg (by omega)]
  exact ⟨by simp only []; omega, by simp only []; omega⟩

/-- C4 witness for `claim4_theorem`: default config (initial 16), 20
tracked buffers all available; the shrink leaves 8 available out of a
total of 8. -/
theorem claim4_witness :
    ({ available := List.range 20, all := List.range 20, next_allocation_id := 20 } : PoolState).available.Nodup ∧
    ({ available := List.range 20, all := List.range 20, next_allocation_id := 20 } : PoolState).all.Nodup ∧
    (∀ x ∈ ({ available := List.range 20, all := List.range 20, next_allocation_id := 20 } : PoolState).available,
      x ∈ ({ available := List.range 20, all := List.range 20, next_allocation_id := 20 } : PoolState).all) ∧
    ({} : PoolConfig).initial_pool_size / 2 <
      ({ available := List.range 20, all := List.range 20, next_allocation_id := 20 } : PoolState).available.length ∧
    ((ShrinkPool {} { available := List.range 20, all := List.range 20, next_allocation_id := 20 }).available.length =
        ({} : PoolConfig).initial_pool_size / 2 ∧
      (ShrinkPool {} { available := List.range 20, all := List.range 20, next_allocation_id := 20 }).all.length =
        ({ available := List.range 20, all := List.range 20, next_allocation_id := 20 } : PoolState).all.length -
          (({ available := List.range 20, all := List.range 20, next_allocation_id := 20 } : PoolState).available.length -
            ({} : PoolConfig).initial_pool_size / 2)) :=
  ⟨by decide, by decide, by decide, by decide,
   claim4_theorem {} { available := List.range 20, all := List.range 20, next_allocation_id := 20 }
     (by decide) (by decide) (by decide) (by decide)⟩

set_option maxRecDepth 2000 in
/-- C4 (counterexample): the spec scenario itself — default pool config
(initial 16, max 64) except a 2-frame shrink cooldown so the cooldown
elapses within the trace, acquire 20 buffers (4 auto-expansions),
release all 20, then tick until the cooldown has elapsed: the shrink
triggered by `TickFrame` leaves a tracked total of 8, strictly below the
initial pool size 16, instead of returning "half of the excess
(down to the initial pool size)". -/
theorem claim4_counterexample :
    (runPool { shrink_delay_frames := 2 } (initPool { shrink_delay_frames := 2 })
      (List.replicate 20 PoolStep.acquire ++
        (List.range 20).map PoolStep.release ++
        List.replicate 2 PoolStep.tick)).all.length = 8 ∧
    (runPool { shrink_delay_frames := 2 } (initPool { shrink_delay_frames := 2 })
      (List.replicate 20 PoolStep.acquire ++
        (List.range 20).map PoolStep.release ++
        List.replicate 2 PoolStep.tick)).pool_shrinks = 1 ∧
    ({ shrink_delay_frames := 2 } : PoolConfig).initial_pool_size = 16 := by
  decide

end Eden

namespace Eden

theorem poolInv_initPool (cfg : PoolConfig) : poolInv (initPool cfg) [] := by
  refine ⟨List.nodup_range _, List.nodup_range _, List.nodup_nil, ?_, ?_, ?_, ?_, ?_⟩
  · intro x hx; exact hx
  · intro x hx; cases hx
  · intro x hx; simpa using List.mem_range.mp hx
  · intro x hx; simpa using List.mem_range.mp hx
  · intro x hx; cases hx

theorem poolInv_acquire (cfg : PoolConfig) (s : PoolState) (A : List Nat)
    (h : poolInv s A) :
    poolInv (AcquireBuffer cfg s).1 ((AcquireBuffer cfg s).2 :: A) := by
  obtain ⟨hav, hal, hA, hsub, hdisj, hbav, hbal, hbA⟩ := h
  cases hq : s.available with
  | cons hd tl =>
    rw [hq] at hav hsub hdisj hbav
    have hhd_tl : hd ∉ tl := (List.nodup_cons.mp hav).1
    simp only [AcquireBuffer, hq, poolInv]
    refine ⟨(List.nodup_cons.mp hav).2, hal, ?_, ?_, ?_, ?_, hbal, ?_⟩
    · refine List.nodup_cons.mpr ⟨?_, hA⟩
      intro hmem
      exact hdisj hd hmem (List.mem_cons_self hd tl)
    · intro x hx; exact hsub x (List.mem_cons_of_mem _ hx)
    · intro x hx
      rcases List.mem_cons.mp hx with h1 | h1
      · intro hc; rw [h1] at hc; exact hhd_tl hc
      · intro hc; exact hdisj x h1 (List.mem_cons_of_mem _ hc)
    · intro x hx; exact hbav x (List.mem_cons_of_mem _ hx)
    · intro x hx
      rcases List.mem_cons.mp hx with h1 | h1
      · have := hbav hd (List.mem_cons_self hd tl); omega
      · exact hbA x h1
  | nil =>
    rw [hq] at hav hsub hdisj hbav
    simp only [AcquireBuffer, hq, poolInv]
    split_ifs with hcond
    all_goals dsimp only
    · refine ⟨List.nodup_nil, ?_, ?_, ?_, ?_, ?_, ?_, ?_⟩
      · refine List.nodup_append.mpr ⟨hal, List.nodup_singleton _, ?_⟩
        intro a ha hb
        have he : a = s.next_allocation_id := List.mem_singleton.mp hb
        have := hbal a ha
        omega
      · refine List.nodup_cons.mpr ⟨?_, hA⟩
        intro hmem
        have := hbA _ hmem
        omega
      · intro x hx; cases hx
      · intro x _ hc; cases hc
      · intro x hx; cases hx
      · intro x hx
        rcases List.mem_append.mp hx with h1 | h1
        · have := hbal x h1; omega
        · have he : x = s.next_allocation_id := List.mem_singleton.mp h1
          omega
      · intro x hx
        rcases List.mem_cons.mp hx with h1 | h1
        · omega
        · have := hbA x h1; omega
    · refine ⟨List.nodup_nil, hal, ?_, ?_, ?_, ?_, ?_, ?_⟩
      · refine List.nodup_cons.mpr ⟨?_, hA⟩
        intro hmem
        have := hbA _ hmem
        omega
      · intro x hx; cases hx
      · intro x _ hc; cases hc
      · intro x hx; cases hx
      · intro x hx; have := hbal x hx; omega
      · intro x hx
        rcases List.mem_cons.mp hx with h1 | h1
        · omega
        · have := hbA x h1; omega

theorem poolInv_release (s : PoolState) (A : List Nat) (b : Nat)
    (h : poolInv s A) (hb : b ∈ A) :
    poolInv (ReleaseBuffer s b) (A.erase b) := by
  obtain ⟨hav, hal, hA, hsub, hdisj, hbav, hbal, hbA⟩ := h
  simp only [ReleaseBuffer, poolInv]
  split_ifs with hmem
  · refine ⟨?_, hal, hA.erase b, ?_, ?_, ?_, hbal, ?_⟩
    · refine List.nodup_append.mpr ⟨hav, List.nodup_singleton _, ?_⟩
      intro a ha hb2
      have he : a = b := List.mem_singleton.mp hb2
      rw [he] at ha
      exact hdisj b hb ha
    · intro x hx
      rcases List.mem_append.mp hx with h1 | h1
      · exact hsub x h1
      · rw [List.mem_singleton.mp h1]; exact hmem
    · intro x hx hc
      have hxA : x ∈ A := List.mem_of_mem_erase hx
      have hxne : x ≠ b := (hA.mem_erase_iff.mp hx).1
      rcases List.mem_append.mp hc with h1 | h1
      · exact hdisj x hxA h1
      · exact hxne (List.mem_singleton.mp h1)
    · intro x hx
      rcases List.mem_append.mp hx with h1 | h1
      · exact hbav x h1
      · rw [List.mem_singleton.mp h1]; exact hbA b hb
    · intro x hx; exact hbA x (List.mem_of_mem_erase hx)
  · refine ⟨hav, hal, hA.erase b, hsub, ?_, hbav, hbal, ?_⟩
    · intro x hx; exact hdisj x (List.mem_of_mem_erase hx)
    · intro x hx; exact hbA x (List.mem_of_mem_erase hx)

theorem poolInv_expand (cfg : PoolConfig) (s : PoolState) (A : List Nat)
    (n : Nat) (h : poolInv s A) :
    poolInv (ExpandPool cfg s n) A := by
  obtain ⟨hav, hal, hA, hsub, hdisj, hbav, hbal, hbA⟩ := h
  simp only [ExpandPool, poolInv]
  refine ⟨?_, ?_, hA, ?_, ?_, ?_, ?_, ?_⟩
  · refine List.nodup_append.mpr ⟨hav, ?_, ?_⟩
    · exact (List.nodup_range _).map (fun a b hab => by omega)
    · intro a ha hb
      rcases List.mem_map.mp hb with ⟨i, _, hi⟩
      have := hbav a ha
      omega
  · refine List.nodup_append.mpr ⟨hal, ?_, ?_⟩
    · exact (List.nodup_range _).map (fun a b hab => by omega)
    · intro a ha hb
      rcases List.mem_map.mp hb with ⟨i, _, hi⟩
      have := hbal a ha
      omega
  · intro x hx
    rcases List.mem_append.mp hx with h1 | h1
    · exact List.mem_append.mpr (Or.inl (hsub x h1))
    · exact List.mem_append.mpr (Or.inr h1)
  · intro x hx hc
    rcases List.mem_append.mp hc with h1 | h1
    · exact hdisj x hx h1
    · rcases List.mem_map.mp h1 with ⟨i, _, hi⟩
      have := hbA _ hx
      omega
  · intro x hx
    rcases List.mem_append.mp hx with h1 | h1
    · have := hbav x h1; omega
    · rcases List.mem_map.mp h1 with ⟨i, hi, hx2⟩
      have := List.mem_range.mp hi
      omega
  · intro x hx
    rcases List.mem_append.mp hx with h1 | h1
    · have := hbal x h1; omega
    · rcases List.mem_map.mp h1 with ⟨i, hi, hx2⟩
      have := List.mem_range.mp hi
      omega
  · intro x hx
    have := hbA x hx
    omega

theorem poolInv_shrink (cfg : PoolConfig) (s : PoolState) (A : List Nat)
    (h : poolInv s A) :
    poolInv (ShrinkPool cfg s) A := by
  obtain ⟨hav, hal, hA, hsub, hdisj, hbav, hbal, hbA⟩ := h
  simp only [ShrinkPool]
  split_ifs with hc
  · exact ⟨hav, hal, hA, hsub, hdisj, hbav, hbal, hbA⟩
  · have spec := shrinkLoop_spec (s.available.length - cfg.initial_pool_size / 2)
      s.available s.all hav hal hsub
    refine ⟨spec.1, spec.2.1, hA, spec.2.2.1, ?_, ?_, ?_, hbA⟩
    · intro x hx hc2
      exact hdisj x hx (spec.2.2.2.1 x hc2)
    · intro x hx
      exact hbav x (spec.2.2.2.1 x hx)
    · intro x hx
      exact hbal x (spec.2.2.2.2.1 x hx)

theorem poolInv_tick (cfg : PoolConfig) (s : PoolState) (A : List Nat)
    (h : poolInv s A) :
    poolInv (PoolTickFrame cfg s) A := by
  simp only [PoolTickFrame]
  split_ifs with hc
  · exact poolInv_shrink cfg _ A h
  · exact h

theorem runPool_inv (cfg : PoolConfig) :
    ∀ (tr : List PoolStep) (s : PoolState) (A : List Nat),
    poolInv s A → properPool cfg s A tr = true →
    ∃ A', poolInv (runPool cfg s tr) A' := by
  intro tr
  induction tr with
  | nil => exact fun s A h _ => ⟨A, h⟩
  | cons st rest ih =>
    intro s A h hp
    cases st with
    | acquire =>
      simp only [properPool] at hp
      exact ih _ _ (poolInv_acquire cfg s A h) hp
    | release b =>
      simp only [properPool, Bool.and_eq_true] at hp
      obtain ⟨hmem, hp2⟩ := hp
      have hbA : b ∈ A := by simpa using hmem
      exact ih _ _ (poolInv_release s A b h hbA) hp2
    | expandPool n =>
      simp only [properPool] at hp
      exact ih _ _ (poolInv_expand cfg s A n h) hp
    | shrinkPool =>
      simp only [properPool] at hp
      exact ih _ _ (poolInv_shrink cfg s A h) hp
    | tick =>
      simp only [properPool] at hp
      exact ih _ _ (poolInv_tick cfg s A h) hp

/-- C6 (amended): pool conservation holds for every *proper* call
sequence — one in which each `ReleaseBuffer` hands back a buffer that is
currently held (previously acquired and not yet released, which includes
dropping untracked temporary buffers).  For the state reached by any
such sequence from a freshly initialized pool, the available count never
exceeds the tracked total, and `GetStats` satisfies
`available + active = total` with `active = total - available`.  The
restriction to proper sequences is forced: releasing the same tracked
handle twice pushes it into the available queue twice (see the
counterexample). -/
theorem claim6_theorem (cfg : PoolConfig) (tr : List PoolStep)
    (hp : properPool cfg (initPool cfg) [] tr = true) :
    (GetPoolStats (runPool cfg (initPool cfg) tr)).available_buffers +
      (GetPoolStats (runPool cfg (initPool cfg) tr)).active_buffers =
    (GetPoolStats (runPool cfg (initPool cfg) tr)).total_buffers := by
  obtain ⟨A, hinv⟩ := runPool_inv cfg tr (initPool cfg) [] (poolInv_initPool cfg) hp
  have hle : (runPool cfg (initPool cfg) tr).available.length ≤
      (runPool cfg (initPool cfg) tr).all.length :=
    (List.subperm_of_subset hinv.1 (fun x hx => hinv.2.2.2.1 x hx)).length_le
  simp only [GetPoolStats]
  omega

/-- C6 witness for `claim6_theorem`: acquire two buffers, release one,
acquire another — a proper sequence. -/
theorem claim6_witness :
    properPool {} (initPool {}) [] [.acquire, .acquire, .release 0, .acquire] = true ∧
    (GetPoolStats (runPool {} (initPool {})
        [.acquire, .acquire, .release 0, .acquire])).available_buffers +
      (GetPoolStats (runPool {} (initPool {})
        [.acquire, .acquire, .release 0, .acquire])).active_buffers =
    (GetPoolStats (runPool {} (initPool {})
        [.acquire, .acquire, .release 0, .acquire])).total_buffers :=
  ⟨by decide,
   claim6_theorem {} [.acquire, .acquire, .release 0, .acquire] (by decide)⟩

/-- C6 (counterexample): the claim quantifies over ANY sequence of
calls, but the sequence acquire, release 0, release 0 — the second
release hands back a handle the caller no longer holds — pushes buffer 0
into the available queue twice: the stats then report 17 available
buffers out of a tracked total of 16, so the available count exceeds the
total and (with the truncated unsigned `active = total - available`)
`available + active = 17 ≠ 16 = total`. -/
theorem claim6_counterexample :
    (GetPoolStats (runPool {} (initPool {})
      [.acquire, .release 0, .release 0])).available_buffers = 17 ∧
    (GetPoolStats (runPool {} (initPool {})
      [.acquire, .release 0, .release 0])).total_buffers = 16 ∧
    (GetPoolStats (runPool {} (initPool {})
      [.acquire, .release 0, .release 0])).available_buffers +
      (GetPoolStats (runPool {} (initPool {})
        [.acquire, .release 0, .release 0])).active_buffers ≠
    (GetPoolStats (runPool {} (initPool {})
      [.acquire, .release 0, .release 0])).total_buffers := by
  decide

end Eden
